import Mathlib

/-!
Verification of the book-catalogue batch lookup program (src/main.py).

The program parses a text file of title/author pairs into book stubs,
queries a remote book-metadata API once per stub, normalizes each JSON
payload into a structured record, and logs a FOUND / NOT FOUND line per
stub.  Below, each Python function is embedded as a Lean definition:

* `IndustryIdentifier`, `ReadingMode`, `ImageLink`, `Book` mirror the
  dataclasses; the raw JSON dictionaries they are built from are
  `IdentifierObj`, `ReadingModesObj`, `ImageLinksObj`, `VolumeInfo`
  (a structure of `Option` fields models optional dictionary keys).
* `Book.fromGoogleBookApi` embeds `Book.from_google_book_api`; dictionary
  subscript lookups that can raise `KeyError` are modelled with `Except`.
* `getNextLine` / `parseBookTitlesFile` embed `_get_next_line` /
  `_parse_book_titles_file`; the `AttributeError` raised when a title has
  no author line (`None.split`) is modelled as the `none` result.
* `buildQuery` / `buildRequest` embed the query and request construction
  of the loop body of `_fetch_book_info`; `fetchOne` / `fetchBookInfo`
  embed the response classification of that loop, with the network
  abstracted as a map from request index to response.
* `reportLine` embeds the per-pair logging decision of `main`.
-/

/-- Mirrors the `IndustryIdentifier` dataclass: optional ISBN-10 and
ISBN-13 strings. -/
structure IndustryIdentifier where
  isbn_10 : Option String := none
  isbn_13 : Option String := none
deriving DecidableEq, Repr

/-- Mirrors the `ReadingMode` dataclass: optional text/image flags. -/
structure ReadingMode where
  text : Option Bool := none
  image : Option Bool := none
deriving DecidableEq, Repr

/-- Mirrors the `ImageLink` dataclass: optional thumbnail URLs. -/
structure ImageLink where
  thumbnail : Option String := none
  small_thumbnail : Option String := none
deriving DecidableEq, Repr

/-- One raw identifier object from the payload's `industryIdentifiers`
list: a JSON dictionary whose `type` and `identifier` keys may each be
absent (`none` models an absent key; reading an absent key raises
`KeyError` in the source). -/
structure IdentifierObj where
  type : Option String := none
  identifier : Option String := none
deriving DecidableEq, Repr

/-- The raw `readingModes` dictionary: `text` / `image` keys may be
absent. -/
structure ReadingModesObj where
  text : Option Bool := none
  image : Option Bool := none
deriving DecidableEq, Repr

/-- The raw `imageLinks` dictionary: `thumbnail` / `small_thumbnail` keys
may be absent. -/
structure ImageLinksObj where
  thumbnail : Option String := none
  small_thumbnail : Option String := none
deriving DecidableEq, Repr

/-- Mirrors the `Book` dataclass.  `title` and `authors` are the two
required fields; every other field defaults to absent (`None` in the
source).  `averageRating` is a JSON number carried through untouched;
it is modelled as a rational. -/
structure Book where
  title : String
  authors : List String
  publisher : Option String := none
  publishedDate : Option String := none
  description : Option String := none
  industryIdentifiers : Option IndustryIdentifier := none
  readingModes : Option ReadingMode := none
  pageCount : Option Int := none
  printType : Option String := none
  categories : Option (List String) := none
  averageRating : Option Rat := none
  ratingsCount : Option Int := none
  maturityRating : Option String := none
  imageLinks : Option ImageLink := none
  language : Option String := none
  previewLink : Option String := none
deriving DecidableEq, Repr

/-- A stub as constructed by the Input Loader: `Book(title=..., authors=...)`
with every optional field left at its default. -/
def Book.stub (title : String) (authors : List String) : Book :=
  { title := title, authors := authors }

/-- The `volumeInfo` JSON object of one search result item.  Each field
models the presence/absence of the corresponding dictionary key read by
`Book.from_google_book_api` via `data.get(name, None)`.  `title` and
`authors` are modelled as present, matching the `Book` dataclass's two
required fields. -/
structure VolumeInfo where
  title : String
  authors : List String
  publisher : Option String := none
  publishedDate : Option String := none
  description : Option String := none
  industryIdentifiers : Option (List IdentifierObj) := none
  readingModes : Option ReadingModesObj := none
  pageCount : Option Int := none
  printType : Option String := none
  categories : Option (List String) := none
  averageRating : Option Rat := none
  ratingsCount : Option Int := none
  maturityRating : Option String := none
  imageLinks : Option ImageLinksObj := none
  language : Option String := none
  previewLink : Option String := none
deriving DecidableEq, Repr

/-- One iteration of the loop in `IndustryIdentifier.__init__`:
`identifier["type"]` raises `KeyError` when the key is absent, and so
does `identifier["identifier"]` when the type matched ISBN_10/ISBN_13;
a later matching entry overwrites an earlier one. -/
def IndustryIdentifier.step (acc : IndustryIdentifier) (o : IdentifierObj) :
    Except String IndustryIdentifier :=
  match o.type with
  | none => .error "KeyError: type"
  | some t =>
    if t = "ISBN_10" then
      match o.identifier with
      | none => .error "KeyError: identifier"
      | some s => .ok { acc with isbn_10 := some s }
    else if t = "ISBN_13" then
      match o.identifier with
      | none => .error "KeyError: identifier"
      | some s => .ok { acc with isbn_13 := some s }
    else
      .ok acc

/-- Embeds `IndustryIdentifier.__init__`: `None` input leaves both fields
absent; otherwise the identifier list is folded with
`IndustryIdentifier.step`. -/
def IndustryIdentifier.ofList (l : Option (List IdentifierObj)) :
    Except String IndustryIdentifier :=
  match l with
  | none => .ok {}
  | some ids => ids.foldlM IndustryIdentifier.step {}

/-- Embeds `ReadingMode.__init__`: `None` input leaves both fields absent;
otherwise each flag is copied when its key is present. -/
def ReadingMode.ofDict (d : Option ReadingModesObj) : ReadingMode :=
  match d with
  | none => {}
  | some r => { text := r.text, image := r.image }

/-- Embeds `ImageLink.__init__`: `None` input leaves both fields absent;
otherwise each URL is copied when its key is present. -/
def ImageLink.ofDict (d : Option ImageLinksObj) : ImageLink :=
  match d with
  | none => {}
  | some r => { thumbnail := r.thumbnail, small_thumbnail := r.small_thumbnail }

/-- Embeds `Book.from_google_book_api`: every recognized field is read with
`data.get(name, None)`, then the three nested groups are replaced by
wrapper objects built from the raw values (the wrappers are constructed
unconditionally, so these three fields are never `None` in the result).
Construction of the identifier group can raise `KeyError`. -/
def Book.fromGoogleBookApi (data : VolumeInfo) : Except String Book := do
  let ii ← IndustryIdentifier.ofList data.industryIdentifiers
  .ok
    { title := data.title
      authors := data.authors
      publisher := data.publisher
      publishedDate := data.publishedDate
      description := data.description
      industryIdentifiers := some ii
      readingModes := some (ReadingMode.ofDict data.readingModes)
      pageCount := data.pageCount
      printType := data.printType
      categories := data.categories
      averageRating := data.averageRating
      ratingsCount := data.ratingsCount
      maturityRating := data.maturityRating
      imageLinks := some (ImageLink.ofDict data.imageLinks)
      language := data.language
      previewLink := data.previewLink }

/-- Embeds Python's `str.strip()` (no argument): drop leading and trailing
whitespace characters.  Defined over the character list so that it
reduces inside the kernel. -/
def pyStrip (s : String) : String :=
  ⟨((s.data.dropWhile Char.isWhitespace).reverse.dropWhile
      Char.isWhitespace).reverse⟩

/-- Does the pattern (first argument) occur at the head of the second
list? -/
def pyStartsWith : List Char → List Char → Bool
  | [], _ => true
  | _ :: _, [] => false
  | a :: as, b :: bs => a = b && pyStartsWith as bs

/-- Worker for `pySplit`: scan left to right, cutting at each
non-overlapping occurrence of the (non-empty) separator; `acc` holds the
current piece reversed.  The fuel argument only forces structural
recursion: every step consumes at least one character, so fuel equal to
the input length never runs out. -/
def pySplitGo (sep : List Char) : Nat → List Char → List Char → List (List Char)
  | _, acc, [] => [acc.reverse]
  | 0, _, _ :: _ => []
  | f + 1, acc, c :: rest =>
    if pyStartsWith sep (c :: rest) then
      acc.reverse :: pySplitGo sep f [] (rest.drop (sep.length - 1))
    else
      pySplitGo sep f (c :: acc) rest

/-- Embeds Python's `str.split(sep)` with an explicit non-empty separator:
split at each non-overlapping occurrence of `sep`, scanning left to
right; adjacent separators produce empty pieces. -/
def pySplit (sep : String) (s : String) : List String :=
  (pySplitGo sep.data s.data.length [] s.data).map (fun cs => ⟨cs⟩)

/-- Embeds `_get_next_line`: strip each line, skip blank (whitespace-only)
lines, return the first stripped non-blank line together with the
remaining lines; `none` models the exhausted-iterator case. -/
def getNextLine : List String → Option (String × List String)
  | [] => none
  | l :: ls => if pyStrip l = "" then getNextLine ls else some (pyStrip l, ls)

/-- The author computation of `_parse_book_titles_file`:
`list(set(authors_line.split("; ")))`.  The Python set is modelled by
`List.dedup` (set semantics fix membership and multiplicity but not
order; `dedup` is one deterministic representative). -/
def parseAuthors (line : String) : List String :=
  (pySplit "; " line).dedup

theorem getNextLine_length {ls : List String} {t : String} {rest : List String}
    (h : getNextLine ls = some (t, rest)) : rest.length < ls.length := by
  induction ls with
  | nil => simp [getNextLine] at h
  | cons l ls ih =>
    by_cases hb : pyStrip l = ""
    · simp [getNextLine, hb] at h
      exact Nat.lt_succ_of_lt (ih h)
    · simp [getNextLine, hb] at h
      simp [h.2.symm]

/-- Embeds `_parse_book_titles_file`: repeatedly read a title line and an
author line; end of input at a title position ends the loop, while end of
input at an author position raises (`authors_line.split` on `None` is an
`AttributeError`), modelled as `none`. -/
def parseBookTitlesFile (lines : List String) : Option (List Book) :=
  match h : getNextLine lines with
  | none => some []
  | some (title, rest) =>
    match h2 : getNextLine rest with
    | none => none
    | some (authorsLine, rest2) =>
      (parseBookTitlesFile rest2).map
        (fun bs => Book.stub title (parseAuthors authorsLine) :: bs)
termination_by lines.length
decreasing_by
  exact Nat.lt_trans (getNextLine_length h2) (getNextLine_length h)

/-- The stripped non-blank lines of a file, in order: the sequence that
drives `_parse_book_titles_file` after `_get_next_line`'s stripping and
blank-skipping. -/
def cleanLines (lines : List String) : List String :=
  (lines.map pyStrip).filter (fun s => s != "")

/-- `_parse_book_titles_file` restated on the stripped non-blank line
sequence: consume lines two at a time, failing on a leftover title. -/
def parseClean : List String → Option (List Book)
  | [] => some []
  | [_] => none
  | t :: a :: rest =>
    (parseClean rest).map (fun bs => Book.stub t (parseAuthors a) :: bs)

/-- The HTTP request issued for one stub in `_fetch_book_info`: URL,
connect/read timeouts, and the Authorization header value. -/
structure HttpRequest where
  url : String
  connectTimeout : Nat
  readTimeout : Nat
  authorization : String
deriving DecidableEq, Repr

/-- Embeds Python's `sep.join(parts)`: concatenate the parts with the
separator between consecutive parts. -/
def pyJoin (sep : String) : List String → String
  | [] => ""
  | [s] => s
  | s :: rest => s ++ sep ++ pyJoin sep rest

/-- The query string built in the loop body of `_fetch_book_info`:
the stub's title, a space, and the space-joined authors. -/
def buildQuery (book : Book) : String :=
  book.title ++ " " ++ pyJoin " " book.authors

/-- The request issued in the loop body of `_fetch_book_info`: the query
is interpolated directly into the volumes-search URL, the connect and
read timeouts are 30 seconds, and the Authorization header carries the
bearer token. -/
def buildRequest (token : String) (book : Book) : HttpRequest :=
  { url := "https://www.googleapis.com/books/v1/volumes?q=" ++ buildQuery book
    connectTimeout := 30
    readTimeout := 30
    authorization := "Bearer " ++ token }

/-- Modelled from the spec: the per-item query string is URL-encoded
before the GET is issued.  URL-encoding (percent-encoding) leaves only
unreserved characters, percent escapes, and URL delimiters in the string;
in particular a URL-encoded string contains no raw space character.
This predicate checks that necessary condition. -/
def isUrlEncoded (s : String) : Bool :=
  s.data.all (fun c =>
    c.isAlphanum || c = '-' || c = '_' || c = '.' || c = '~' || c = '%' ||
    c = '+' || c = '&' || c = '=' || c = '?' || c = '/' || c = ':')

/-- One search result item of the response payload: `data["items"][i]`
holds a `volumeInfo` object. -/
structure ApiItem where
  volumeInfo : VolumeInfo
deriving DecidableEq, Repr

/-- One HTTP response: a status code and, for the body, the optional
`items` array of the JSON payload (`none` models a payload without an
`items` key). -/
structure ApiResponse where
  statusCode : Nat
  items : Option (List ApiItem) := none
deriving DecidableEq, Repr

/-- The response classification of one loop iteration of
`_fetch_book_info` (lines 164-180 of the source).  The three `if`
statements under `status_code == 200` are mutually exclusive: no `items`
key or an empty `items` array yields the original stub; exactly one item
yields the record normalized from it; more than one item yields the
record normalized from the first item only.  Any other status yields the
original stub.  The result is the list of pairs yielded for this
iteration; a `KeyError` escaping normalization is an `error`. -/
def fetchOne (book : Book) (r : ApiResponse) :
    Except String (List (Nat × Option Book)) :=
  if r.statusCode = 200 then
    match r.items with
    | none => .ok [(r.statusCode, some book)]
    | some [] => .ok [(r.statusCode, some book)]
    | some [item] =>
      match Book.fromGoogleBookApi item.volumeInfo with
      | .error e => .error e
      | .ok b => .ok [(r.statusCode, some b)]
    | some (item :: _ :: _) =>
      match Book.fromGoogleBookApi item.volumeInfo with
      | .error e => .error e
      | .ok b => .ok [(r.statusCode, some b)]
  else
    .ok [(r.statusCode, some book)]

/-- The generator loop of `_fetch_book_info` over the stub list, with the
network abstracted as `env : Nat → ApiResponse` giving the response to
the i-th request.  The result is the list of pairs yielded before any
uncaught exception, together with the exception if one aborted the
loop. -/
def fetchBookInfoAux (env : Nat → ApiResponse) :
    Nat → List Book → List (Nat × Option Book) × Option String
  | _, [] => ([], none)
  | i, book :: rest =>
    match fetchOne book (env i) with
    | .error e => ([], some e)
    | .ok ys =>
      let t := fetchBookInfoAux env (i + 1) rest
      (ys ++ t.1, t.2)

/-- Embeds `_fetch_book_info` as consumed by `main`: all yielded
(status, result) pairs in order, plus the aborting exception if any. -/
def fetchBookInfo (books : List Book) (env : Nat → ApiResponse) :
    List (Nat × Option Book) × Option String :=
  fetchBookInfoAux env 0 books

/-- Embeds the per-pair logging decision of `main` (lines 215-218): if the
status is 200 and the result is not `None`, log a FOUND line with the
result's title, otherwise log a NOT FOUND line with the result's title
(`none` models the `AttributeError` of `None.title` in the else
branch). -/
def reportLine (status : Nat) (bookOut : Option Book) : Option String :=
  if status = 200 ∧ bookOut.isSome then
    bookOut.map (fun b => "FOUND: " ++ b.title)
  else
    bookOut.map (fun b => "NOT FOUND: " ++ b.title)

/-- The stub parsed from the end-to-end example of the specification:
title Dune, single author Frank Herbert. -/
def duneStub : Book :=
  Book.stub "Dune" ["Frank Herbert"]

/-- A payload carrying only the two required fields; every optional key is
absent. -/
def emptyVolume : VolumeInfo :=
  { title := "Dune", authors := ["Frank Herbert"] }

/-- The record normalized from `emptyVolume`: every scalar optional field
is absent, while the three nested groups are present-but-empty wrapper
objects. -/
def emptyVolumeBook : Book :=
  { title := "Dune"
    authors := ["Frank Herbert"]
    industryIdentifiers := some ⟨none, none⟩
    readingModes := some ⟨none, none⟩
    imageLinks := some ⟨none, none⟩ }

/-- An identifier object whose `type` key is absent: reading it raises
`KeyError`. -/
def badIdObj : IdentifierObj := {}

/-- A payload whose identifier list contains one malformed identifier
object. -/
def badVolume : VolumeInfo :=
  { title := "Dune", authors := [], industryIdentifiers := some [badIdObj] }

/-- A 200 response whose single item carries the malformed payload. -/
def badResponse : ApiResponse :=
  { statusCode := 200, items := some [⟨badVolume⟩] }

theorem cleanLines_cons (l : String) (ls : List String) :
    cleanLines (l :: ls) =
      if pyStrip l = "" then cleanLines ls else pyStrip l :: cleanLines ls := by
  by_cases hb : pyStrip l = "" <;> simp [cleanLines, hb]

theorem getNextLine_eq_none {ls : List String} (h : getNextLine ls = none) :
    cleanLines ls = [] := by
  induction ls with
  | nil => rfl
  | cons l ls ih =>
    by_cases hb : pyStrip l = ""
    · simp [getNextLine, hb] at h
      simp [cleanLines_cons, hb, ih h]
    · simp [getNextLine, hb] at h

theorem getNextLine_eq_some {ls rest : List String} {t : String}
    (h : getNextLine ls = some (t, rest)) :
    cleanLines ls = t :: cleanLines rest := by
  induction ls with
  | nil => simp [getNextLine] at h
  | cons l ls ih =>
    by_cases hb : pyStrip l = ""
    · simp [getNextLine, hb] at h
      simp [cleanLines_cons, hb, ih h]
    · simp [getNextLine, hb] at h
      obtain ⟨h1, h2⟩ := h
      subst h1
      subst h2
      simp [cleanLines_cons, hb]

theorem parse_eq_parseClean (lines : List String) :
    parseBookTitlesFile lines = parseClean (cleanLines lines) := by
  rw [parseBookTitlesFile]
  split
  · next h => rw [getNextLine_eq_none h]; rfl
  · next t rest h =>
    rw [getNextLine_eq_some h]
    split
    · next h2 => rw [getNextLine_eq_none h2]; rfl
    · next a rest2 h2 =>
      rw [getNextLine_eq_some h2]
      rw [parse_eq_parseClean rest2]
      rfl
termination_by lines.length
decreasing_by
  exact Nat.lt_trans (getNextLine_length (by assumption))
    (getNextLine_length (by assumption))

theorem parseClean_odd :
    ∀ l : List String, l.length % 2 = 1 → parseClean l = none
  | [], h => by simp at h
  | [_], _ => rfl
  | _ :: _ :: rest, h => by
    have hr : rest.length % 2 = 1 := by
      simp [List.length] at h
      omega
    simp [parseClean, parseClean_odd rest hr]

theorem parseClean_pairs :
    ∀ pairs : List (String × String),
      parseClean (pairs.flatMap (fun p => [p.1, p.2])) =
        some (pairs.map (fun p => Book.stub p.1 (parseAuthors p.2)))
  | [] => rfl
  | p :: rest => by
    simp only [List.flatMap_cons, List.map_cons, List.cons_append,
      List.singleton_append]
    simp [parseClean, parseClean_pairs rest]

/-- C6: an input whose stripped non-blank lines end in a title with no
following author line (an odd count of non-blank lines) makes the Input
Loader fail: `_parse_book_titles_file` raises instead of returning a
stub list, so the truncated entry is neither dropped nor turned into a
partial stub. -/
theorem input_loader_fails_on_truncated_input (lines : List String)
    (h : (cleanLines lines).length % 2 = 1) :
    parseBookTitlesFile lines = none := by
  rw [parse_eq_parseClean]
  exact parseClean_odd _ h

theorem input_loader_fails_on_truncated_input_witness :
    (cleanLines ["Dune", "", "   "]).length % 2 = 1 ∧
      parseBookTitlesFile ["Dune", "", "   "] = none :=
  ⟨by decide, input_loader_fails_on_truncated_input _ (by decide)⟩

/-- C7: the Input Loader's result depends only on the stripped non-blank
line sequence, so inserting or removing blank lines anywhere leaves the
parsed stub count and content unchanged; and a file whose non-blank
lines form N title/author pairs parses to exactly those N stubs in file
order. -/
theorem input_loader_blank_robust_and_counts :
    (∀ lines lines2 : List String, cleanLines lines = cleanLines lines2 →
      parseBookTitlesFile lines = parseBookTitlesFile lines2) ∧
    (∀ (lines : List String) (pairs : List (String × String)),
      cleanLines lines = pairs.flatMap (fun p => [p.1, p.2]) →
      parseBookTitlesFile lines =
        some (pairs.map (fun p => Book.stub p.1 (parseAuthors p.2)))) := by
  constructor
  · intro lines lines2 h
    rw [parse_eq_parseClean, parse_eq_parseClean, h]
  · intro lines pairs h
    rw [parse_eq_parseClean, h, parseClean_pairs]

theorem input_loader_blank_robust_and_counts_witness :
    parseBookTitlesFile ["", " Dune ", "", "Frank Herbert", "  "] =
        parseBookTitlesFile ["Dune", "Frank Herbert"] ∧
      parseBookTitlesFile ["", " Dune ", "", "Frank Herbert", "  "] =
        some [Book.stub "Dune" (parseAuthors "Frank Herbert")] :=
  ⟨input_loader_blank_robust_and_counts.1
      ["", " Dune ", "", "Frank Herbert", "  "] ["Dune", "Frank Herbert"]
      (by decide),
    input_loader_blank_robust_and_counts.2
      ["", " Dune ", "", "Frank Herbert", "  "] [("Dune", "Frank Herbert")]
      (by decide)⟩

/-- C8: the author computation of the Input Loader splits the author line
on the two-character separator and deduplicates with set semantics: the
resulting collection holds each distinct author exactly once and has the
same underlying set as the raw split, with no order guarantee; in
particular the line A-semicolon-B-semicolon-A gives the two-element set
containing A and B, and a file with that author line parses to a single
stub carrying exactly those authors. -/
theorem dedup_toFinset {α : Type} [DecidableEq α] (l : List α) :
    l.dedup.toFinset = l.toFinset := by
  ext a
  simp

theorem author_dedup_set_semantics :
    (∀ line : String,
      (parseAuthors line).Nodup ∧
        (parseAuthors line).toFinset = (pySplit "; " line).toFinset) ∧
    (parseAuthors "A; B; A").toFinset = {"A", "B"} ∧
    (parseAuthors "A; B; A").length = 2 ∧
    parseBookTitlesFile ["T", "A; B; A"] =
      some [Book.stub "T" (parseAuthors "A; B; A")] := by
  refine ⟨fun line => ⟨List.nodup_dedup _, dedup_toFinset _⟩,
    by decide, by decide, ?_⟩
  rw [parse_eq_parseClean]
  decide

theorem fetchOne_ok_singleton {book : Book} {r : ApiResponse}
    {ys : List (Nat × Option Book)} (h : fetchOne book r = .ok ys) :
    ∃ b, ys = [(r.statusCode, some b)] := by
  unfold fetchOne at h
  split at h
  · split at h
    · injection h with h
      exact ⟨book, h.symm⟩
    · injection h with h
      exact ⟨book, h.symm⟩
    · split at h
      · cases h
      · injection h with h
        exact ⟨_, h.symm⟩
    · split at h
      · cases h
      · injection h with h
        exact ⟨_, h.symm⟩
  · injection h with h
    exact ⟨book, h.symm⟩

/-- C2: single-response classification of the Lookup Client.  A 200
response with an empty or absent `items` array yields the original stub;
a 200 response with exactly one item yields the record normalized from
it; a 200 response with two or more items yields the record normalized
from the first item only; any non-200 status yields the original stub
regardless of the body. -/
theorem lookup_classification :
    (∀ book : Book,
      fetchOne book ⟨200, some []⟩ = .ok [(200, some book)]) ∧
    (∀ book : Book,
      fetchOne book ⟨200, none⟩ = .ok [(200, some book)]) ∧
    (∀ (book : Book) (item : ApiItem) (b : Book),
      Book.fromGoogleBookApi item.volumeInfo = .ok b →
      fetchOne book ⟨200, some [item]⟩ = .ok [(200, some b)]) ∧
    (∀ (book : Book) (item1 item2 : ApiItem) (rest : List ApiItem) (b : Book),
      Book.fromGoogleBookApi item1.volumeInfo = .ok b →
      fetchOne book ⟨200, some (item1 :: item2 :: rest)⟩ =
        .ok [(200, some b)]) ∧
    (∀ (book : Book) (s : Nat) (items : Option (List ApiItem)),
      s ≠ 200 → fetchOne book ⟨s, items⟩ = .ok [(s, some book)]) := by
  refine ⟨fun book => rfl, fun book => rfl, ?_, ?_, ?_⟩
  · intro book item b h
    simp [fetchOne, h]
  · intro book item1 item2 rest b h
    simp [fetchOne, h]
  · intro book s items hs
    simp [fetchOne, hs]

theorem lookup_classification_witness :
    fetchOne duneStub ⟨200, some []⟩ = .ok [(200, some duneStub)] ∧
    fetchOne duneStub ⟨200, none⟩ = .ok [(200, some duneStub)] ∧
    fetchOne duneStub ⟨200, some [⟨emptyVolume⟩]⟩ =
      .ok [(200, some emptyVolumeBook)] ∧
    fetchOne duneStub ⟨200, some [⟨emptyVolume⟩, ⟨emptyVolume⟩]⟩ =
      .ok [(200, some emptyVolumeBook)] ∧
    fetchOne duneStub ⟨404, some [⟨emptyVolume⟩]⟩ =
      .ok [(404, some duneStub)] :=
  ⟨lookup_classification.1 duneStub,
    lookup_classification.2.1 duneStub,
    lookup_classification.2.2.1 duneStub ⟨emptyVolume⟩ emptyVolumeBook rfl,
    lookup_classification.2.2.2.1 duneStub ⟨emptyVolume⟩ ⟨emptyVolume⟩ []
      emptyVolumeBook rfl,
    lookup_classification.2.2.2.2 duneStub 404 (some [⟨emptyVolume⟩])
      (by decide)⟩

/-- C5 (amended): the per-item request carries the query built from the
stub's title followed by a space and the space-joined authors,
interpolated into the search URL as is (the program applies no
URL-encoding, see the counterexample), a 30-second connect timeout, a
30-second read timeout, and a bearer Authorization header carrying the
current access token. -/
theorem request_construction (token : String) (book : Book) :
    (buildRequest token book).url =
      "https://www.googleapis.com/books/v1/volumes?q=" ++ buildQuery book ∧
    buildQuery book = book.title ++ " " ++ pyJoin " " book.authors ∧
    (buildRequest token book).connectTimeout = 30 ∧
    (buildRequest token book).readTimeout = 30 ∧
    (buildRequest token book).authorization = "Bearer " ++ token :=
  ⟨rfl, rfl, rfl, rfl, rfl⟩

theorem request_not_url_encoded :
    isUrlEncoded (buildRequest "token123" duneStub).url = false := by decide

/-- C1: at the failing input — the stub for Dune and a 200 response with
zero items — the Lookup Client yields the original stub, which is not
`None`, so `main` logs a FOUND line with the stub's title instead of the
NOT FOUND line the specification requires. -/
theorem reporter_found_on_empty_items_bug :
    fetchBookInfo [duneStub] (fun _ => ⟨200, some []⟩) =
      ([(200, some duneStub)], none) ∧
    reportLine 200 (some duneStub) = some "FOUND: Dune" ∧
    "FOUND: Dune" ≠ "NOT FOUND: Dune" :=
  ⟨rfl, rfl, by decide⟩

theorem fetchAux_ok (env : Nat → ApiResponse) :
    ∀ (books : List Book) (i : Nat),
      (∀ j (hj : j < books.length), ∃ ys, fetchOne books[j] (env (i + j)) = .ok ys) →
      (fetchBookInfoAux env i books).2 = none ∧
      (fetchBookInfoAux env i books).1.length = books.length ∧
      ∀ j (hj : j < books.length), ∃ p,
        (fetchBookInfoAux env i books).1[j]? = some p ∧
        fetchOne books[j] (env (i + j)) = .ok [p] := by
  intro books
  induction books with
  | nil =>
    intro i h
    simp [fetchBookInfoAux]
  | cons bk rest ih =>
    intro i h
    obtain ⟨ys, hys⟩ := h 0 (by simp)
    simp only [List.getElem_cons_zero, Nat.add_zero] at hys
    obtain ⟨b0, hb0⟩ := fetchOne_ok_singleton hys
    subst hb0
    have hTail : ∀ j (hj : j < rest.length),
        ∃ ys2, fetchOne rest[j] (env ((i + 1) + j)) = .ok ys2 := by
      intro j hj
      have h2 := h (j + 1) (by simpa using Nat.succ_lt_succ hj)
      have harith : i + (j + 1) = (i + 1) + j := by omega
      simpa [List.getElem_cons_succ, harith] using h2
    obtain ⟨hA, hB, hC⟩ := ih (i + 1) hTail
    refine ⟨by simp [fetchBookInfoAux, hys, hA], by simp [fetchBookInfoAux, hys, hB], ?_⟩
    intro j hj
    cases j with
    | zero =>
      exact ⟨((env i).statusCode, some b0),
        by simp [fetchBookInfoAux, hys], by simpa using hys⟩
    | succ j =>
      have hj2 : j < rest.length := by simpa using hj
      obtain ⟨p, hp1, hp2⟩ := hC j hj2
      have harith : i + (j + 1) = (i + 1) + j := by omega
      refine ⟨p, ?_, ?_⟩
      · simpa [fetchBookInfoAux, hys] using hp1
      · simpa [List.getElem_cons_succ, harith] using hp2

/-- C3 (amended): if every per-item request completes with a response
whose classification does not raise (in particular, every 200 payload's
identifier objects are well-formed), the Lookup Client yields exactly one
(status, result) pair per input stub, in input order: the output has the
same length as the input and its j-th pair is the single pair produced
from the j-th stub and the j-th response.  Without the well-formedness
assumption the count can fall short, see the counterexample. -/
theorem lookup_outcome_count (books : List Book) (env : Nat → ApiResponse)
    (h : ∀ j (hj : j < books.length), ∃ ys, fetchOne books[j] (env j) = .ok ys) :
    (fetchBookInfo books env).2 = none ∧
    (fetchBookInfo books env).1.length = books.length ∧
    ∀ j (hj : j < books.length), ∃ p,
      (fetchBookInfo books env).1[j]? = some p ∧
      fetchOne books[j] (env j) = .ok [p] := by
  have := fetchAux_ok env books 0 (by simpa using h)
  simpa [fetchBookInfo] using this

theorem lookup_outcome_count_witness :
    (fetchBookInfo [duneStub] (fun _ => ⟨404, none⟩)).1.length =
      ([duneStub] : List Book).length :=
  (lookup_outcome_count [duneStub] (fun _ => ⟨404, none⟩)
    (by
      intro j hj
      have hj1 : j < 1 := by simpa using hj
      have hj0 : j = 0 := by omega
      subst hj0
      exact ⟨[(404, some duneStub)], rfl⟩)).2.1

theorem lookup_outcome_count_counterexample :
    (fetchBookInfo [duneStub] (fun _ => badResponse)).1.length = 0 ∧
    ([duneStub] : List Book).length = 1 ∧
    (fetchBookInfo [duneStub] (fun _ => badResponse)).2 =
      some "KeyError: type" :=
  ⟨rfl, rfl, rfl⟩

/-- C4 (amended): every scalar optional field whose key is absent from the
payload is absent in the normalized record (a missing `pageCount` maps to
the absent state, not 0); the three nested groups behave differently:
when their key is absent the record still holds a present wrapper object,
all of whose member fields are absent — the group field itself is not in
the absent state. -/
theorem normalization_absent_semantics (v : VolumeInfo) (b : Book)
    (h : Book.fromGoogleBookApi v = .ok b) :
    (v.publisher = none → b.publisher = none) ∧
    (v.publishedDate = none → b.publishedDate = none) ∧
    (v.description = none → b.description = none) ∧
    (v.pageCount = none → b.pageCount = none) ∧
    (v.printType = none → b.printType = none) ∧
    (v.categories = none → b.categories = none) ∧
    (v.averageRating = none → b.averageRating = none) ∧
    (v.ratingsCount = none → b.ratingsCount = none) ∧
    (v.maturityRating = none → b.maturityRating = none) ∧
    (v.language = none → b.language = none) ∧
    (v.previewLink = none → b.previewLink = none) ∧
    (v.industryIdentifiers = none →
      b.industryIdentifiers = some ⟨none, none⟩) ∧
    (v.readingModes = none → b.readingModes = some ⟨none, none⟩) ∧
    (v.imageLinks = none → b.imageLinks = some ⟨none, none⟩) := by
  unfold Book.fromGoogleBookApi at h
  cases hii : IndustryIdentifier.ofList v.industryIdentifiers with
  | error e =>
    rw [hii] at h
    simp [Bind.bind, Except.bind] at h
  | ok ii =>
    rw [hii] at h
    simp only [Bind.bind, Except.bind, Except.ok.injEq] at h
    subst h
    refine ⟨fun hn => hn, fun hn => hn, fun hn => hn, fun hn => hn,
      fun hn => hn, fun hn => hn, fun hn => hn, fun hn => hn, fun hn => hn,
      fun hn => hn, fun hn => hn, ?_, ?_, ?_⟩
    · intro hn
      rw [hn] at hii
      simp only [IndustryIdentifier.ofList, Except.ok.injEq] at hii
      simp [← hii]
    · intro hn
      rw [hn]
      rfl
    · intro hn
      rw [hn]
      rfl

theorem normalization_absent_semantics_witness :
    emptyVolumeBook.pageCount = none ∧
    emptyVolumeBook.industryIdentifiers = some ⟨none, none⟩ :=
  ⟨(normalization_absent_semantics emptyVolume emptyVolumeBook rfl).2.2.2.1
      rfl,
    (normalization_absent_semantics emptyVolume emptyVolumeBook
          rfl).2.2.2.2.2.2.2.2.2.2.2.1 rfl⟩

theorem normalization_nested_groups_counterexample :
    emptyVolume.industryIdentifiers = none ∧
    emptyVolume.readingModes = none ∧
    emptyVolume.imageLinks = none ∧
    Book.fromGoogleBookApi emptyVolume = .ok emptyVolumeBook ∧
    emptyVolumeBook.industryIdentifiers ≠ none ∧
    emptyVolumeBook.readingModes ≠ none ∧
    emptyVolumeBook.imageLinks ≠ none :=
  ⟨rfl, rfl, rfl, rfl, by decide, by decide, by decide⟩

theorem fetchAux_mem_some {env : Nat → ApiResponse} :
    ∀ {books : List Book} {i : Nat} {p : Nat × Option Book},
      p ∈ (fetchBookInfoAux env i books).1 → ∃ b, p.2 = some b := by
  intro books
  induction books with
  | nil =>
    intro i p hp
    simp [fetchBookInfoAux] at hp
  | cons bk rest ih =>
    intro i p hp
    cases hf : fetchOne bk (env i) with
    | error e =>
      simp only [fetchBookInfoAux, hf] at hp
      simp at hp
    | ok ys =>
      simp only [fetchBookInfoAux, hf] at hp
      obtain ⟨b0, hb0⟩ := fetchOne_ok_singleton hf
      subst hb0
      simp at hp
      cases hp with
      | inl h => exact ⟨b0, by simp [h]⟩
      | inr h => exact ih h

/-- C9: every pair yielded by the Lookup Client has a non-`None` second
component (a record or the original stub), so the Run Reporter's
not-`None` check never distinguishes any pair and the FOUND / NOT FOUND
decision is determined by the status code alone. -/
theorem lookup_result_never_none (books : List Book) (env : Nat → ApiResponse)
    (p : Nat × Option Book) (hp : p ∈ (fetchBookInfo books env).1) :
    ∃ b, p.2 = some b ∧
      reportLine p.1 p.2 =
        some ((if p.1 = 200 then "FOUND: " else "NOT FOUND: ") ++ b.title) := by
  obtain ⟨b, hb⟩ := fetchAux_mem_some hp
  refine ⟨b, hb, ?_⟩
  rw [hb]
  by_cases h200 : p.1 = 200 <;> simp [reportLine, h200]

theorem lookup_result_never_none_witness :
    ∃ b, ((404, some duneStub) : Nat × Option Book).2 = some b ∧
      reportLine ((404, some duneStub) : Nat × Option Book).1
          ((404, some duneStub) : Nat × Option Book).2 =
        some ((if ((404, some duneStub) : Nat × Option Book).1 = 200 then
            "FOUND: " else "NOT FOUND: ") ++ b.title) :=
  lookup_result_never_none [duneStub] (fun _ => ⟨404, none⟩)
    (404, some duneStub) (by decide)

theorem step_ok {o : IdentifierObj} (acc : IndustryIdentifier)
    (h : ∃ t, o.type = some t ∧
      ((t = "ISBN_10" ∨ t = "ISBN_13") → ∃ s, o.identifier = some s)) :
    ∃ acc2, IndustryIdentifier.step acc o = .ok acc2 := by
  obtain ⟨t, ht, hid⟩ := h
  unfold IndustryIdentifier.step
  rw [ht]
  by_cases h10 : t = "ISBN_10"
  · obtain ⟨s, hs⟩ := hid (Or.inl h10)
    simp [h10, hs]
  · by_cases h13 : t = "ISBN_13"
    · obtain ⟨s, hs⟩ := hid (Or.inr h13)
      simp [h10, h13, hs]
    · simp [h10, h13]

theorem foldl_steps_ok (ids : List IdentifierObj)
    (h : ∀ o ∈ ids, ∃ t, o.type = some t ∧
      ((t = "ISBN_10" ∨ t = "ISBN_13") → ∃ s, o.identifier = some s)) :
    ∀ acc, ∃ r, ids.foldlM IndustryIdentifier.step acc = .ok r := by
  induction ids with
  | nil => exact fun acc => ⟨acc, rfl⟩
  | cons o rest ih =>
    intro acc
    obtain ⟨acc2, hacc2⟩ := step_ok acc (h o (by simp))
    obtain ⟨r, hr⟩ := ih (fun o2 ho2 => h o2 (by simp [ho2])) acc2
    exact ⟨r, by simp [List.foldlM, hacc2, hr, Bind.bind, Except.bind]⟩

/-- C10: normalization of a 200 payload is total exactly under the
precondition that every identifier object carries a `type` key, and an
`identifier` key when the type is ISBN_10 or ISBN_13; a payload violating
it makes the identifier-group construction raise a `KeyError`, which
aborts the whole run with no outcome for that item (and none for later
items). -/
theorem identifier_normalization_partiality :
    (∀ ids : List IdentifierObj,
      (∀ o ∈ ids, ∃ t, o.type = some t ∧
        ((t = "ISBN_10" ∨ t = "ISBN_13") → ∃ s, o.identifier = some s)) →
      ∃ r, IndustryIdentifier.ofList (some ids) = .ok r) ∧
    Book.fromGoogleBookApi badVolume = .error "KeyError: type" ∧
    fetchBookInfo [duneStub] (fun _ => badResponse) =
      ([], some "KeyError: type") := by
  refine ⟨?_, rfl, rfl⟩
  intro ids h
  exact foldl_steps_ok ids h {}

theorem identifier_normalization_partiality_witness :
    ∃ r, IndustryIdentifier.ofList
        (some [{ type := some "ISBN_10", identifier := some "0441172717" }]) =
      .ok r :=
  identifier_normalization_partiality.1
    [{ type := some "ISBN_10", identifier := some "0441172717" }]
    (by
      intro o ho
      simp at ho
      subst ho
      exact ⟨"ISBN_10", rfl, fun _ => ⟨"0441172717", rfl⟩⟩)
